import Mathlib

/-!
Verification of the `nvidia-cc-rs` keyboard helper
(`src/apps/desktop/nvidia-cc-rs/src/main.rs`) against its design
specification.  The Linux listening path is embedded shallowly:

* an `evdev::Key` is represented by its platform textual identifier
  (the Rust `Debug` name, e.g. `"KEY_A"`, `"KEY_LEFTCTRL"`), which is
  exactly the string the source's fallback branch manipulates;
* the 100-odd-arm Rust `match` of `evdev_key_to_rdev_name` is a
  first-match association table, embedded as `rdev_name_table` plus a
  first-match lookup;
* Rust's `str::starts_with` is the list-prefix test on the string's
  characters.
-/

/-- First-match association lookup, the meaning of a Rust `match` whose
arms are distinct literal keys. -/
def tableLookup : List (String × String) → String → Option String
  | [], _ => none
  | (k, v) :: rest, key => if key = k then some v else tableLookup rest key

/-- The fixed translation table of `evdev_key_to_rdev_name`
(main.rs lines 71-190), one pair per match arm, in source order. -/
def rdev_name_table : List (String × String) :=
  [ -- Modifier keys
    ("KEY_LEFTCTRL", "ControlLeft"),
    ("KEY_RIGHTCTRL", "ControlRight"),
    ("KEY_LEFTSHIFT", "ShiftLeft"),
    ("KEY_RIGHTSHIFT", "ShiftRight"),
    ("KEY_LEFTALT", "Alt"),
    ("KEY_RIGHTALT", "AltRight"),
    ("KEY_LEFTMETA", "MetaLeft"),
    ("KEY_RIGHTMETA", "MetaRight"),
    -- Letter keys
    ("KEY_A", "KeyA"), ("KEY_B", "KeyB"), ("KEY_C", "KeyC"),
    ("KEY_D", "KeyD"), ("KEY_E", "KeyE"), ("KEY_F", "KeyF"),
    ("KEY_G", "KeyG"), ("KEY_H", "KeyH"), ("KEY_I", "KeyI"),
    ("KEY_J", "KeyJ"), ("KEY_K", "KeyK"), ("KEY_L", "KeyL"),
    ("KEY_M", "KeyM"), ("KEY_N", "KeyN"), ("KEY_O", "KeyO"),
    ("KEY_P", "KeyP"), ("KEY_Q", "KeyQ"), ("KEY_R", "KeyR"),
    ("KEY_S", "KeyS"), ("KEY_T", "KeyT"), ("KEY_U", "KeyU"),
    ("KEY_V", "KeyV"), ("KEY_W", "KeyW"), ("KEY_X", "KeyX"),
    ("KEY_Y", "KeyY"), ("KEY_Z", "KeyZ"),
    -- Number keys
    ("KEY_0", "Digit0"), ("KEY_1", "Digit1"), ("KEY_2", "Digit2"),
    ("KEY_3", "Digit3"), ("KEY_4", "Digit4"), ("KEY_5", "Digit5"),
    ("KEY_6", "Digit6"), ("KEY_7", "Digit7"), ("KEY_8", "Digit8"),
    ("KEY_9", "Digit9"),
    -- Function keys
    ("KEY_F1", "F1"), ("KEY_F2", "F2"), ("KEY_F3", "F3"),
    ("KEY_F4", "F4"), ("KEY_F5", "F5"), ("KEY_F6", "F6"),
    ("KEY_F7", "F7"), ("KEY_F8", "F8"), ("KEY_F9", "F9"),
    ("KEY_F10", "F10"), ("KEY_F11", "F11"), ("KEY_F12", "F12"),
    -- Special keys
    ("KEY_ESC", "Escape"),
    ("KEY_TAB", "Tab"),
    ("KEY_CAPSLOCK", "CapsLock"),
    ("KEY_SPACE", "Space"),
    ("KEY_ENTER", "Return"),
    ("KEY_BACKSPACE", "BackSpace"),
    ("KEY_DELETE", "Delete"),
    ("KEY_INSERT", "Insert"),
    ("KEY_HOME", "Home"),
    ("KEY_END", "End"),
    ("KEY_PAGEUP", "PageUp"),
    ("KEY_PAGEDOWN", "PageDown"),
    -- Arrow keys
    ("KEY_UP", "UpArrow"),
    ("KEY_DOWN", "DownArrow"),
    ("KEY_LEFT", "LeftArrow"),
    ("KEY_RIGHT", "RightArrow"),
    -- Punctuation and symbols
    ("KEY_MINUS", "Minus"),
    ("KEY_EQUAL", "Equal"),
    ("KEY_LEFTBRACE", "BracketLeft"),
    ("KEY_RIGHTBRACE", "BracketRight"),
    ("KEY_BACKSLASH", "BackSlash"),
    ("KEY_SEMICOLON", "Semicolon"),
    ("KEY_APOSTROPHE", "Quote"),
    ("KEY_GRAVE", "BackQuote"),
    ("KEY_COMMA", "Comma"),
    ("KEY_DOT", "Period"),
    ("KEY_SLASH", "Slash"),
    -- Numpad
    ("KEY_KP0", "Numpad0"), ("KEY_KP1", "Numpad1"), ("KEY_KP2", "Numpad2"),
    ("KEY_KP3", "Numpad3"), ("KEY_KP4", "Numpad4"), ("KEY_KP5", "Numpad5"),
    ("KEY_KP6", "Numpad6"), ("KEY_KP7", "Numpad7"), ("KEY_KP8", "Numpad8"),
    ("KEY_KP9", "Numpad9"),
    ("KEY_KPENTER", "NumpadEnter"),
    ("KEY_KPPLUS", "NumpadAdd"),
    ("KEY_KPMINUS", "NumpadSubtract"),
    ("KEY_KPASTERISK", "NumpadMultiply"),
    ("KEY_KPSLASH", "NumpadDivide"),
    ("KEY_KPDOT", "NumpadDecimal"),
    ("KEY_NUMLOCK", "NumLock"),
    -- Other
    ("KEY_SCROLLLOCK", "ScrollLock"),
    ("KEY_PAUSE", "Pause"),
    ("KEY_PRINT", "PrintScreen"),
    ("KEY_FN", "Function") ]

/-- `evdev_key_to_rdev_name` (main.rs lines 67-202): consult the fixed
table; for any key outside it take the Debug-format name and strip the
leading `"KEY_"` when present, else return it unchanged. -/
def evdev_key_to_rdev_name (key : String) : String :=
  match tableLookup rdev_name_table key with
  | some name => name
  | none =>
    let debug_name := key
    if "KEY_".data <+: debug_name.data then
      debug_name.drop 4
    else
      debug_name

/-- The keyboard-capability probe of `start_keyboard_listener`
(main.rs lines 250-253): `device.supported_keys()` maps to `false` when
absent, else the set must contain `KEY_A`, `KEY_SPACE`, `KEY_LEFTCTRL`
or `KEY_LEFTALT`. -/
def has_keyboard_caps (supported_keys : Option (List String)) : Bool :=
  match supported_keys with
  | none => false
  | some keys =>
    keys.contains "KEY_A" || keys.contains "KEY_SPACE" ||
    keys.contains "KEY_LEFTCTRL" || keys.contains "KEY_LEFTALT"

/-- The 26 letter-key identifiers. -/
def letter_keys : List String :=
  ["KEY_A", "KEY_B", "KEY_C", "KEY_D", "KEY_E", "KEY_F", "KEY_G",
   "KEY_H", "KEY_I", "KEY_J", "KEY_K", "KEY_L", "KEY_M", "KEY_N",
   "KEY_O", "KEY_P", "KEY_Q", "KEY_R", "KEY_S", "KEY_T", "KEY_U",
   "KEY_V", "KEY_W", "KEY_X", "KEY_Y", "KEY_Z"]

/-- The classification exactly as the claim words it: at least one of a
letter key, the space key, either control key, or either alt key. -/
def claimed_keyboard_caps (supported_keys : Option (List String)) : Bool :=
  match supported_keys with
  | none => false
  | some keys =>
    (letter_keys.any fun k => keys.contains k) ||
    keys.contains "KEY_SPACE" ||
    keys.contains "KEY_LEFTCTRL" || keys.contains "KEY_RIGHTCTRL" ||
    keys.contains "KEY_LEFTALT" || keys.contains "KEY_RIGHTALT"

mutual
/-- Minimal JSON value model covering everything the program emits. -/
inductive JsonVal where
  | str : String → JsonVal
  | num : Nat → JsonVal
  | nul : JsonVal
  | obj : JsonFields → JsonVal

/-- Ordered member list of a JSON object. -/
inductive JsonFields where
  | nil : JsonFields
  | fcons : String → JsonVal → JsonFields → JsonFields
end

/-- Lower-case hex digit. -/
def hexDigit (n : Nat) : Char :=
  if n < 10 then Char.ofNat (48 + n) else Char.ofNat (87 + n)

/-- serde_json string escaping of one character (34 is the double quote,
92 the backslash): quote, backslash and the named control characters get
two-character escapes, remaining control characters the \u00XX form,
everything else passes through. -/
def escapeJsonChar (c : Char) : List Char :=
  if c.toNat = 34 then [Char.ofNat 92, Char.ofNat 34]
  else if c.toNat = 92 then [Char.ofNat 92, Char.ofNat 92]
  else if c.toNat = 8 then [Char.ofNat 92, 'b']
  else if c.toNat = 12 then [Char.ofNat 92, 'f']
  else if c.toNat = 10 then [Char.ofNat 92, 'n']
  else if c.toNat = 13 then [Char.ofNat 92, 'r']
  else if c.toNat = 9 then [Char.ofNat 92, 't']
  else if c.toNat < 32 then
    [Char.ofNat 92, 'u', '0', '0', hexDigit (c.toNat / 16), hexDigit (c.toNat % 16)]
  else [c]

/-- serde_json escaping of a whole string. -/
def escapeJsonString (s : String) : String :=
  ⟨(s.data.map escapeJsonChar).flatten⟩

/-- A JSON string literal: escaped content between double quotes. -/
def jsonQuote (s : String) : String :=
  "\x22" ++ escapeJsonString s ++ "\x22"

mutual
/-- Compact serde_json rendering of a JSON value. -/
def renderJson : JsonVal → String
  | .str s => jsonQuote s
  | .num n => toString n
  | .nul => "null"
  | .obj fs => "\x7b" ++ renderFields fs ++ "\x7d"

/-- Comma-separated object members. -/
def renderFields : JsonFields → String
  | .nil => ""
  | .fcons k v .nil => jsonQuote k ++ ":" ++ renderJson v
  | .fcons k v rest => jsonQuote k ++ ":" ++ renderJson v ++ "," ++ renderFields rest
end

/-- `std::time::SystemTime`, in the two-field shape serde serializes. -/
structure SysTime where
  secs_since_epoch : Nat
  nanos_since_epoch : Nat
deriving DecidableEq

/-- serde serialization of a SystemTime. -/
def sysTimeJson (t : SysTime) : JsonVal :=
  .obj (.fcons "secs_since_epoch" (.num t.secs_since_epoch)
       (.fcons "nanos_since_epoch" (.num t.nanos_since_epoch) .nil))

/-- The stdout record struct (main.rs lines 8-14); the field order is
the serde serialization order. -/
structure KeyboardEvent where
  event_type : String
  name : Option String
  time : SysTime
  data : String
deriving DecidableEq

/-- serde serialization of a KeyboardEvent as a JSON value. -/
def keyboardEventJson (e : KeyboardEvent) : JsonVal :=
  .obj (.fcons "event_type" (.str e.event_type)
       (.fcons "name" (match e.name with | some n => .str n | none => .nul)
       (.fcons "time" (sysTimeJson e.time)
       (.fcons "data" (.str e.data) .nil))))

/-- `serde_json::to_string(&json_event)`: the emitted stdout line. -/
def serializeEvent (e : KeyboardEvent) : String :=
  renderJson (keyboardEventJson e)

/-- `json!({"key": rdev_key_name}).to_string()` (main.rs line 342). -/
def keyDataJson (rdev_key_name : String) : String :=
  renderJson (.obj (.fcons "key" (.str rdev_key_name) .nil))

/-- `json!({"error": .., "message": ..}).to_string()` (main.rs 212). -/
def errorDataJson (error_type message : String) : String :=
  renderJson (.obj (.fcons "error" (.str error_type)
                   (.fcons "message" (.str message) .nil)))

/-- `output_error_event` (main.rs 207-218): the KeyboardEvent printed on
stdout and the `!error:` diagnostic line printed on stderr. -/
def output_error_event (now : SysTime) (error_type message : String) :
    KeyboardEvent × String :=
  ({ event_type := "Error",
     name := some error_type,
     time := now,
     data := errorDataJson error_type message },
   "!error: " ++ error_type ++ " - " ++ message)

/-- evdev `InputEventKind`: key events carry their key (by Debug name);
every other kind (synchronization, relative axes, ...) is opaque here. -/
inductive InputEventKind where
  | key : String → InputEventKind
  | other : InputEventKind
deriving DecidableEq

/-- One raw evdev input event: its kind and its i32 value. -/
structure InputEvent where
  kind : InputEventKind
  value : Int
deriving DecidableEq

/-- The per-event body of `listen_keyboard_device` (main.rs 327-346):
key-type events of value 0 or 1 become KeyboardEvents named "KeyRelease"
and "KeyPress"; value 2 (key repeat) and every other value or kind is
skipped. -/
def processEvent (now : SysTime) (ev : InputEvent) : Option KeyboardEvent :=
  match ev.kind with
  | .key k =>
    let event_type : Option String :=
      if ev.value = 0 then some "KeyRelease"
      else if ev.value = 1 then some "KeyPress"
      else none
    match event_type with
    | none => none
    | some ty =>
      let rdev_key_name := evdev_key_to_rdev_name k
      some { event_type := ty,
             name := some rdev_key_name,
             time := now,
             data := keyDataJson rdev_key_name }
  | .other => none

/-- One result of `device.fetch_events()`: a batch of raw events, or the
I/O error that ends the monitor. -/
inductive FetchResult where
  | batch : List InputEvent → FetchResult
  | ioError : String → FetchResult
deriving DecidableEq

/-- Monitor and listener outcome: the Linux listening loops either
return an error or are still running; no path produces a success. -/
inductive ListenerOutcome where
  | err : String → ListenerOutcome
  | running : ListenerOutcome
deriving DecidableEq

/-- `listen_keyboard_device` (main.rs 322-349) over a finite prefix of
the device's fetch results: the stdout lines produced, and the loop
outcome (`running` while no fetch has failed - the loop never returns
Ok). -/
def listen_keyboard_device (now : SysTime) :
    List FetchResult → List String × ListenerOutcome
  | [] => ([], .running)
  | .ioError msg :: _ => ([], .err msg)
  | .batch evs :: rest =>
    let out := (evs.filterMap (processEvent now)).map serializeEvent
    let (outRest, r) := listen_keyboard_device now rest
    (out ++ outRest, r)

/-- An open input device: its supported-key capability set as queried,
its display name, and the fetch results its monitor will observe. -/
structure DeviceModel where
  supported_keys : Option (List String)
  devName : Option String
  fetches : List FetchResult
deriving DecidableEq

/-- Result of `Device::open` on one /dev/input entry. -/
inductive OpenResult where
  | ok : DeviceModel → OpenResult
  | permissionDenied : OpenResult
  | otherError : OpenResult
deriving DecidableEq

/-- One directory entry of /dev/input. -/
structure DirEntry where
  fileName : String
  openResult : OpenResult
deriving DecidableEq

/-- The displayed path of an entry. -/
def entryPath (e : DirEntry) : String := "/dev/input/" ++ e.fileName

/-- The device-enumeration loop of `start_keyboard_listener`
(main.rs 237-266): keep, in directory order, the openable event devices
that pass the keyboard probe; remember the message of the last
permission-denied open failure; skip non-event entries and all other
open failures silently. -/
def scanEntries : List DirEntry → List (String × DeviceModel) × Option String
  | [] => ([], none)
  | e :: rest =>
    if "event".data <+: e.fileName.data then
      match e.openResult with
      | .ok dev =>
        let (kbs, lastErr) := scanEntries rest
        if has_keyboard_caps dev.supported_keys then
          ((entryPath e, dev) :: kbs, lastErr)
        else
          (kbs, lastErr)
      | .permissionDenied =>
        let (kbs, lastErr) := scanEntries rest
        (kbs,
          match lastErr with
          | some m => some m
          | none => some ("Permission denied for " ++ entryPath e))
      | .otherError => scanEntries rest
    else
      scanEntries rest

/-- The last permission-denied failure among the event entries, as a
direct selection (the "last one wins" reading of the spec). -/
def lastPermissionDenied (entries : List DirEntry) : Option String :=
  (entries.filterMap fun e =>
    match e.openResult with
    | .permissionDenied =>
      if "event".data <+: e.fileName.data then
        some ("Permission denied for " ++ entryPath e)
      else none
    | _ => none).getLast?

/-- The operator guidance printed on a permission failure (main.rs 271). -/
def permission_message : String :=
  "User must be in 'input' group. Run: sudo usermod -aG input $USER, then log out and back in."

/-- The no-keyboard message (main.rs 275). -/
def no_keyboard_message : String := "No keyboard device found in /dev/input/"

/-- What `start_keyboard_listener` decides right after enumeration:
fail (with an emitted ErrorEvent and an error message) or proceed to
monitoring the discovered keyboards. -/
inductive DiscoveryOutcome where
  | fatal : KeyboardEvent × String → String → DiscoveryOutcome
  | monitoring : List (String × DeviceModel) → DiscoveryOutcome
deriving DecidableEq

/-- The discovery phase of `start_keyboard_listener` (main.rs 269-280):
with zero keyboards, emit PermissionDenied when some open failed with
permission denied, else NoKeyboardFound, and fail; otherwise proceed. -/
def discoverOutcome (now : SysTime) (entries : List DirEntry) : DiscoveryOutcome :=
  match scanEntries entries with
  | ([], some err) =>
    .fatal (output_error_event now "PermissionDenied" permission_message)
           ("Failed to access keyboard devices: " ++ err)
  | ([], none) =>
    .fatal (output_error_event now "NoKeyboardFound" no_keyboard_message)
           no_keyboard_message
  | (kbs, _) => .monitoring kbs

/-- Shared supervision state of the multi-device path (main.rs 288-318):
the atomic ActiveDeviceCount, the ErrorEvents emitted on stdout, and the
stderr diagnostic log. -/
structure OrchState where
  activeCount : Nat
  emitted : List (KeyboardEvent × String)
  diagLog : List String
deriving DecidableEq

/-- Initial supervision state: ActiveDeviceCount holds the number of
discovered keyboard devices (main.rs 290); nothing emitted yet. -/
def initOrch (n : Nat) : OrchState :=
  { activeCount := n, emitted := [], diagLog := [] }

/-- The handler a monitoring thread runs when its Monitor returns an
error (main.rs 296-306): log the per-device failure, atomically
decrement ActiveDeviceCount, and emit the AllDevicesFailed ErrorEvent
exactly when the decrement reaches zero. -/
def monitorFailure (now : SysTime) (path_str errMsg : String) (s : OrchState) :
    OrchState :=
  let remaining := s.activeCount - 1
  { activeCount := remaining,
    emitted := s.emitted ++
      (if remaining = 0 then
        [output_error_event now "AllDevicesFailed" "All keyboard devices have stopped"]
       else []),
    diagLog := s.diagLog ++ ["Device " ++ path_str ++ " stopped: " ++ errMsg] }

/-- A sequence of per-device monitor failures, applied in order. -/
def runFailures (now : SysTime) : List (String × String) → OrchState → OrchState
  | [], s => s
  | (p, m) :: rest, s => runFailures now rest (monitorFailure now p m s)

/-- The orchestrating thread's periodic check (main.rs 312-318): the
session terminates, with its terminal error, exactly when
ActiveDeviceCount has reached zero. -/
def supervisorCheck (s : OrchState) : ListenerOutcome :=
  if s.activeCount = 0 then .err "All keyboard devices have stopped" else .running

/-- How many AllDevicesFailed ErrorEvents have been emitted. -/
def countAllFailed (s : OrchState) : Nat :=
  (s.emitted.filter fun e => e.1.name == some "AllDevicesFailed").length

/-- Whether a monitor over these fetch results eventually fails. -/
def monitorFails (now : SysTime) (d : DeviceModel) : Bool :=
  match (listen_keyboard_device now d.fetches).2 with
  | .err _ => true
  | .running => false

/-- `start_keyboard_listener` (main.rs 221-319) end to end: discovery,
then the single-device inline monitor, or the multi-device supervision
whose blocking loop ends only once every monitor has failed. No branch
returns success. -/
def start_keyboard_listener (now : SysTime) (entries : List DirEntry) :
    ListenerOutcome :=
  match discoverOutcome now entries with
  | .fatal _ errMsg => .err errMsg
  | .monitoring kbs =>
    match kbs with
    | [(_, d)] => (listen_keyboard_device now d.fetches).2
    | _ =>
      if kbs.all (fun pd => monitorFails now pd.2) then
        .err "All keyboard devices have stopped"
      else
        .running

/-- The stderr usage lines of main (main.rs 394-398). -/
def usageLines (args : List String) : List String :=
  let name := args.headD "speakmcp-rs"
  ["Usage: " ++ name ++ " [listen|write <text>]",
   "Commands:",
   "  listen       - Listen for keyboard events",
   "  write <text> - Write text using accessibility API"]

/-- Process termination behavior. -/
inductive ExitOutcome where
  | exited : Nat → ExitOutcome
  | runsForever : ExitOutcome
deriving DecidableEq

/-- `main` (main.rs 373-401): dispatch on argv; the listen path's fate
comes from the listener model, the write path's from the external
injection library's result, and every other invocation prints usage and
exits 1. Returns the exit behavior and the stderr lines it prints. -/
def mainRun (args : List String) (now : SysTime) (entries : List DirEntry)
    (writeResult : Except String Unit) : ExitOutcome × List String :=
  if 1 < args.length ∧ args.getD 1 "" = "listen" then
    match start_keyboard_listener now entries with
    | .err e => (.exited 1, ["!error: " ++ e])
    | .running => (.runsForever, [])
  else if 2 < args.length ∧ args.getD 1 "" = "write" then
    match writeResult with
    | .ok _ => (.exited 0, [])
    | .error e => (.exited 101, ["Write command failed: " ++ e])
  else
    (.exited 1, usageLines args)

/-- Substring occurrence, for the usage-content checks. -/
def strContains (s sub : String) : Prop := sub.data <:+: s.data

instance (s sub : String) : Decidable (strContains s sub) :=
  inferInstanceAs (Decidable (sub.data <:+: s.data))

/-- A successful first-match lookup only returns pairs of the table. -/
theorem tableLookup_mem {t : List (String × String)} {k v : String}
    (h : tableLookup t k = some v) : (k, v) ∈ t := by
  induction t with
  | nil => simp [tableLookup] at h
  | cons p rest ih =>
    obtain ⟨pk, pv⟩ := p
    simp only [tableLookup] at h
    split at h
    · rename_i heq
      obtain rfl := heq
      obtain rfl : pv = v := by injection h
      exact List.mem_cons_self _ _
    · exact List.mem_cons_of_mem _ (ih h)

/-- Every canonical string of the fixed table is non-empty. -/
theorem rdev_name_table_values_nonempty : ∀ p ∈ rdev_name_table, p.2 ≠ "" := by
  decide

/-- Unfolding the translation at a key covered by the table. -/
theorem evdev_eq_of_lookup_some (key v : String)
    (h : tableLookup rdev_name_table key = some v) :
    evdev_key_to_rdev_name key = v := by
  unfold evdev_key_to_rdev_name
  rw [h]

/-- Unfolding the translation at a key outside the table. -/
theorem evdev_eq_of_lookup_none (key : String)
    (h : tableLookup rdev_name_table key = none) :
    evdev_key_to_rdev_name key =
      if "KEY_".data <+: key.data then key.drop 4 else key := by
  unfold evdev_key_to_rdev_name
  rw [h]

set_option maxRecDepth 10000 in
/-- C1: every raw key identifier covered by the fixed table translates to
exactly the table's canonical string; in particular left-Alt maps to
"Alt", right-Alt to "AltRight", Enter to "Return" and Backspace to
"BackSpace". -/
theorem translate_table_exact :
    evdev_key_to_rdev_name "KEY_LEFTALT" = "Alt" ∧
    evdev_key_to_rdev_name "KEY_RIGHTALT" = "AltRight" ∧
    evdev_key_to_rdev_name "KEY_ENTER" = "Return" ∧
    evdev_key_to_rdev_name "KEY_BACKSPACE" = "BackSpace" ∧
    ∀ p ∈ rdev_name_table, evdev_key_to_rdev_name p.1 = p.2 := by
  refine ⟨by decide, by decide, by decide, by decide, by decide⟩

/-- Witness for C1 at a concrete table entry. -/
theorem translate_table_exact_witness :
    ("KEY_ESC", "Escape") ∈ rdev_name_table ∧
    evdev_key_to_rdev_name "KEY_ESC" = "Escape" :=
  ⟨by decide, translate_table_exact.2.2.2.2 ("KEY_ESC", "Escape") (by decide)⟩

/-- C2: translation is total and never fails: every valid raw key
identifier (a non-empty Debug name, never the bare constant prefix)
yields a non-empty canonical string, and outside the fixed table the
result is the identifier with the `"KEY_"` prefix stripped when present
and the identifier unchanged otherwise. -/
theorem translate_total_fallback (key : String)
    (hvalid : key ≠ "" ∧ key ≠ "KEY_") :
    evdev_key_to_rdev_name key ≠ "" ∧
    (tableLookup rdev_name_table key = none →
      evdev_key_to_rdev_name key =
        (if "KEY_".data <+: key.data then key.drop 4 else key)) := by
  obtain ⟨hne, hnp⟩ := hvalid
  cases h : tableLookup rdev_name_table key with
  | some v =>
    rw [evdev_eq_of_lookup_some key v h]
    refine ⟨rdev_name_table_values_nonempty (key, v) (tableLookup_mem h), ?_⟩
    intro hcontra
    exact Option.noConfusion hcontra
  | none =>
    rw [evdev_eq_of_lookup_none key h]
    refine ⟨?_, fun _ => rfl⟩
    by_cases hpre : "KEY_".data <+: key.data
    · rw [if_pos hpre]
      obtain ⟨t, ht⟩ := hpre
      have h4 : ("KEY_".data).length = 4 := by decide
      have hdrop : key.drop 4 = ⟨t⟩ := by
        rw [String.drop_eq, ← ht, ← h4]
        exact congrArg String.mk (List.drop_left "KEY_".data t)
      rw [hdrop]
      intro habs
      apply hnp
      have ht0 : t = [] := congrArg String.data habs
      apply String.ext
      rw [← ht, ht0, List.append_nil]
    · rw [if_neg hpre]
      exact hne

/-- C4 counterexample: a device whose capability set holds only the
right control key satisfies the claimed probe ("either control key"),
yet the code classifies it as non-keyboard; likewise the claimed and the
implemented classifier disagree there. -/
theorem keyboard_caps_counterexample :
    claimed_keyboard_caps (some ["KEY_RIGHTCTRL"]) = true ∧
    has_keyboard_caps (some ["KEY_RIGHTCTRL"]) = false := by
  decide

/-- C4 (amended): an openable device is classified keyboard iff its
supported-key set is present and contains the letter-A key, the space
key, the left control key, or the left alt key; a pointing-only device
is rejected and a space plus left-control device is accepted. -/
theorem keyboard_classification :
    (∀ keys : List String,
      has_keyboard_caps (some keys) = true ↔
        ("KEY_A" ∈ keys ∨ "KEY_SPACE" ∈ keys ∨
         "KEY_LEFTCTRL" ∈ keys ∨ "KEY_LEFTALT" ∈ keys)) ∧
    has_keyboard_caps none = false ∧
    has_keyboard_caps (some ["BTN_LEFT", "BTN_RIGHT", "BTN_MIDDLE"]) = false ∧
    has_keyboard_caps (some ["KEY_SPACE", "KEY_LEFTCTRL"]) = true := by
  refine ⟨?_, rfl, by decide, by decide⟩
  intro keys
  simp [has_keyboard_caps, List.contains_iff_exists_mem_beq, beq_iff_eq]
  tauto

/-- Witness for C2 at a concrete untabulated key. -/
theorem translate_total_fallback_witness :
    evdev_key_to_rdev_name "KEY_KATAKANA" ≠ "" ∧
    (tableLookup rdev_name_table "KEY_KATAKANA" = none →
      evdev_key_to_rdev_name "KEY_KATAKANA" =
        (if "KEY_".data <+: "KEY_KATAKANA".data then "KEY_KATAKANA".drop 4
         else "KEY_KATAKANA")) :=
  translate_total_fallback "KEY_KATAKANA" (by decide)

/-- C3: a raw event becomes a KeyEvent exactly when it is a key-type
event with value 1 (KeyPress) or value 0 (KeyRelease); value 2 (key
repeat), any other value, and any non-key kind are skipped and never
become a KeyEvent. -/
theorem monitor_event_filtering (now : SysTime) (k : String) (v : Int) :
    processEvent now { kind := .key k, value := 1 } =
      some { event_type := "KeyPress", name := some (evdev_key_to_rdev_name k),
             time := now, data := keyDataJson (evdev_key_to_rdev_name k) } ∧
    processEvent now { kind := .key k, value := 0 } =
      some { event_type := "KeyRelease", name := some (evdev_key_to_rdev_name k),
             time := now, data := keyDataJson (evdev_key_to_rdev_name k) } ∧
    processEvent now { kind := .key k, value := 2 } = none ∧
    (v ≠ 0 → v ≠ 1 → processEvent now { kind := .key k, value := v } = none) ∧
    processEvent now { kind := .other, value := v } = none := by
  refine ⟨by simp [processEvent], by simp [processEvent], by simp [processEvent],
    ?_, by simp [processEvent]⟩
  intro h0 h1
  simp [processEvent, h0, h1]

/-- Witness for C3: a concrete repeat-valued event is skipped. -/
theorem monitor_event_filtering_witness :
    processEvent ⟨0, 0⟩ { kind := .key "KEY_A", value := 5 } = none :=
  (monitor_event_filtering ⟨0, 0⟩ "KEY_A" 5).2.2.2.1 (by decide) (by decide)

/-- Last element of a cons, via the tail's last element. -/
theorem getLast?_cons_or {α : Type} (a : α) (l : List α) :
    (a :: l).getLast? = l.getLast?.or (some a) := by
  induction l generalizing a with
  | nil => rfl
  | cons b t ih =>
    rw [List.getLast?_cons_cons, ih b]
    cases h : t.getLast? with
    | some x => simp [Option.or]
    | none => simp [Option.or]

/-- Unfolding `lastPermissionDenied` over a cons: the tail wins over
the head. -/
theorem lastPD_cons (e : DirEntry) (rest : List DirEntry) :
    lastPermissionDenied (e :: rest) =
      (lastPermissionDenied rest).or
        (match e.openResult with
         | .permissionDenied =>
           if "event".data <+: e.fileName.data then
             some ("Permission denied for " ++ entryPath e)
           else none
         | _ => none) := by
  unfold lastPermissionDenied
  rw [List.filterMap_cons]
  cases hor : e.openResult with
  | ok dev => rw [Option.or_none]
  | permissionDenied =>
    by_cases hev : "event".data <+: e.fileName.data
    · rw [if_pos hev, getLast?_cons_or]
    · rw [if_neg hev, Option.or_none]
  | otherError => rw [Option.or_none]

/-- The error slot of the scan is exactly the last permission-denied
failure among the event entries. -/
theorem scanEntries_lastErr (entries : List DirEntry) :
    (scanEntries entries).2 = lastPermissionDenied entries := by
  induction entries with
  | nil => rfl
  | cons e rest ih =>
    rcases hsr : scanEntries rest with ⟨kbs, lastErr⟩
    rw [hsr] at ih
    rw [lastPD_cons, ← ih]
    by_cases hev : "event".data <+: e.fileName.data
    · cases hor : e.openResult with
      | ok dev =>
        simp only [scanEntries, if_pos hev, hor, hsr]
        by_cases hkb : has_keyboard_caps dev.supported_keys <;>
          simp [hkb, Option.or_none]
      | permissionDenied =>
        simp only [scanEntries, if_pos hev, hor, hsr, if_pos hev]
        cases hle : lastErr with
        | some m => simp [Option.or_some]
        | none => simp [Option.none_or]
      | otherError =>
        simp only [scanEntries, if_pos hev, hor, hsr]
        simp [Option.or_none]
    · simp only [scanEntries, if_neg hev, hsr]
      cases hor : e.openResult with
      | ok dev => simp [Option.or_none]
      | permissionDenied => simp [Option.or_none, if_neg hev]
      | otherError => simp [Option.or_none]

set_option maxRecDepth 40000 in
/-- C5: with zero discovered keyboards, discovery fails with the
PermissionDenied ErrorEvent carrying the join-the-input-group-and-
re-login instruction when some open attempt was permission-denied, and
with NoKeyboardFound otherwise; a non-empty discovery proceeds to
monitoring regardless of individual open failures, and the remembered
permission-denied message is the last one. -/
theorem discovery_failure_report (now : SysTime) (entries : List DirEntry) :
    (∀ err, (scanEntries entries).1 = [] → (scanEntries entries).2 = some err →
        discoverOutcome now entries =
          .fatal (output_error_event now "PermissionDenied" permission_message)
                 ("Failed to access keyboard devices: " ++ err)) ∧
    ((scanEntries entries).1 = [] → (scanEntries entries).2 = none →
        discoverOutcome now entries =
          .fatal (output_error_event now "NoKeyboardFound" no_keyboard_message)
                 no_keyboard_message) ∧
    ((scanEntries entries).1 ≠ [] →
        discoverOutcome now entries = .monitoring (scanEntries entries).1) ∧
    (scanEntries entries).2 = lastPermissionDenied entries ∧
    strContains permission_message "in 'input' group" ∧
    strContains permission_message "log out and back in" := by
  rcases hs : scanEntries entries with ⟨kbs, le⟩
  have hlast := scanEntries_lastErr entries
  rw [hs] at hlast
  simp only [hs]
  refine ⟨?_, ?_, ?_, hlast, by decide, by decide⟩
  · intro err h1 h2
    subst h1; subst h2
    simp [discoverOutcome, hs]
  · intro h1 h2
    subst h1; subst h2
    simp [discoverOutcome, hs]
  · intro hne
    cases kbs with
    | nil => exact absurd rfl hne
    | cons a t => simp [discoverOutcome, hs]

/-- Witness for C5: two permission-denied entries and no keyboard; the
later entry's message is remembered and discovery fails with
PermissionDenied. -/
theorem discovery_failure_report_witness :
    discoverOutcome ⟨0, 0⟩
        [⟨"event0", .permissionDenied⟩, ⟨"event1", .permissionDenied⟩] =
      .fatal (output_error_event ⟨0, 0⟩ "PermissionDenied" permission_message)
             ("Failed to access keyboard devices: " ++
                "Permission denied for /dev/input/event1") :=
  (discovery_failure_report ⟨0, 0⟩
      [⟨"event0", .permissionDenied⟩, ⟨"event1", .permissionDenied⟩]).1
    "Permission denied for /dev/input/event1" (by decide) (by decide)

/-- ActiveDeviceCount after a failure sequence: truncated subtraction
of the sequence's length. -/
theorem runFailures_activeCount (now : SysTime) (fails : List (String × String))
    (s : OrchState) :
    (runFailures now fails s).activeCount = s.activeCount - fails.length := by
  induction fails generalizing s with
  | nil => simp [runFailures]
  | cons f rest ih =>
    obtain ⟨p, m⟩ := f
    rw [runFailures, ih]
    simp only [monitorFailure, List.length_cons]
    omega

/-- Every monitor failure appends exactly one diagnostic line. -/
theorem runFailures_diagLog (now : SysTime) (fails : List (String × String))
    (s : OrchState) :
    (runFailures now fails s).diagLog.length = s.diagLog.length + fails.length := by
  induction fails generalizing s with
  | nil => simp [runFailures]
  | cons f rest ih =>
    obtain ⟨p, m⟩ := f
    rw [runFailures, ih]
    simp [monitorFailure]
    omega

/-- One failure step emits the AllDevicesFailed event exactly when the
decrement reaches zero. -/
theorem monitorFailure_countAllFailed (now : SysTime) (p m : String)
    (s : OrchState) :
    countAllFailed (monitorFailure now p m s) =
      countAllFailed s + (if s.activeCount - 1 = 0 then 1 else 0) := by
  by_cases hr : s.activeCount - 1 = 0 <;>
    simp [countAllFailed, monitorFailure, output_error_event, hr,
      List.filter_append]

/-- The AllDevicesFailed event count after a failure sequence that does
not exceed the live count: exactly one emission when the sequence
drains the count, none otherwise. -/
theorem runFailures_countAllFailed (now : SysTime) (fails : List (String × String))
    (s : OrchState) (h : fails.length ≤ s.activeCount) :
    countAllFailed (runFailures now fails s) =
      countAllFailed s +
        (if 0 < fails.length ∧ fails.length = s.activeCount then 1 else 0) := by
  induction fails generalizing s with
  | nil => simp [runFailures]
  | cons f rest ih =>
    obtain ⟨p, m⟩ := f
    rw [runFailures]
    simp only [List.length_cons] at h
    have hle : rest.length ≤ (monitorFailure now p m s).activeCount := by
      simp only [monitorFailure]
      omega
    rw [ih _ hle, monitorFailure_countAllFailed]
    have hac : (monitorFailure now p m s).activeCount = s.activeCount - 1 := rfl
    rw [hac]
    simp only [List.length_cons]
    split_ifs <;> omega

example : renderJson (.obj (.fcons "key" (.str "KeyA") .nil)) =
    "\x7b\x22key\x22:\x22KeyA\x22\x7d" := by decide

/-- C6: in the multi-device orchestration a single monitor error is
non-fatal to the session: it is logged to the diagnostic channel and
ActiveDeviceCount is decremented, the session stays alive while the
count is positive, and the AllDevicesFailed ErrorEvent is emitted
exactly once, precisely when the decrement reaches zero. -/
theorem multi_device_partial_failure (now : SysTime) (N : Nat) (hN : 0 < N)
    (fails : List (String × String)) (hk : fails.length ≤ N) :
    (runFailures now fails (initOrch N)).activeCount = N - fails.length ∧
    (runFailures now fails (initOrch N)).diagLog.length = fails.length ∧
    countAllFailed (runFailures now fails (initOrch N)) =
      (if fails.length = N then 1 else 0) ∧
    supervisorCheck (runFailures now fails (initOrch N)) =
      (if fails.length = N then ListenerOutcome.err "All keyboard devices have stopped"
       else ListenerOutcome.running) := by
  have h1 := runFailures_activeCount now fails (initOrch N)
  have h2 := runFailures_diagLog now fails (initOrch N)
  have h3 := runFailures_countAllFailed now fails (initOrch N)
    (by simpa [initOrch] using hk)
  have hcz : countAllFailed (initOrch N) = 0 := rfl
  have hia : (initOrch N).activeCount = N := rfl
  rw [hia] at h1
  refine ⟨h1, by simpa [initOrch] using h2, ?_, ?_⟩
  · rw [h3, hcz, hia]
    split_ifs <;> omega
  · rw [supervisorCheck, h1]
    by_cases hEq : fails.length = N
    · rw [if_pos hEq, if_pos (by omega : N - fails.length = 0)]
    · rw [if_neg hEq, if_neg (by omega : ¬ N - fails.length = 0)]

/-- Witness for C6 at N = 3: the session survives two failures and the
third produces exactly one AllDevicesFailed emission. -/
theorem multi_device_partial_failure_witness :
    supervisorCheck
        (runFailures ⟨0, 0⟩ [("d1", "e1"), ("d2", "e2")] (initOrch 3)) =
      ListenerOutcome.running ∧
    countAllFailed
        (runFailures ⟨0, 0⟩ [("d1", "e1"), ("d2", "e2"), ("d3", "e3")]
          (initOrch 3)) = 1 := by
  constructor
  · have h := (multi_device_partial_failure ⟨0, 0⟩ 3 (by decide)
      [("d1", "e1"), ("d2", "e2")] (by decide)).2.2.2
    simpa using h
  · have h := (multi_device_partial_failure ⟨0, 0⟩ 3 (by decide)
      [("d1", "e1"), ("d2", "e2"), ("d3", "e3")] (by decide)).2.2.1
    simpa using h

/-- Failure sequences compose by appending. -/
theorem runFailures_append (now : SysTime) (l1 l2 : List (String × String))
    (s : OrchState) :
    runFailures now (l1 ++ l2) s = runFailures now l2 (runFailures now l1 s) := by
  induction l1 generalizing s with
  | nil => rfl
  | cons f rest ih =>
    obtain ⟨p, m⟩ := f
    rw [List.cons_append, runFailures, runFailures, ih]

/-- C7: ActiveDeviceCount starts at the discovered device count N, a
failure step can only decrease it, it decreases monotonically from N
toward 0 along every failure sequence (any extension of a sequence
leaves it no larger), and its reaching zero is exactly the session's
terminal-failure condition. -/
theorem active_device_count_invariant (now : SysTime) (N : Nat)
    (fails : List (String × String)) :
    (initOrch N).activeCount = N ∧
    (∀ p m s, (monitorFailure now p m s).activeCount ≤ s.activeCount) ∧
    (runFailures now fails (initOrch N)).activeCount = N - fails.length ∧
    (∀ pre suf, fails = pre ++ suf →
      (runFailures now fails (initOrch N)).activeCount ≤
        (runFailures now pre (initOrch N)).activeCount) ∧
    (supervisorCheck (runFailures now fails (initOrch N)) ≠ ListenerOutcome.running
      ↔ (runFailures now fails (initOrch N)).activeCount = 0) := by
  refine ⟨rfl, ?_, ?_, ?_, ?_⟩
  · intro p m s
    simp only [monitorFailure]
    omega
  · simpa [initOrch] using runFailures_activeCount now fails (initOrch N)
  · intro pre suf hps
    rw [hps, runFailures_append, runFailures_activeCount]
    exact Nat.sub_le _ _
  · rw [supervisorCheck]
    by_cases h0 : (runFailures now fails (initOrch N)).activeCount = 0
    · simp [h0]
    · simp [h0]

/-- Witness for C7: a two-failure sequence extends a one-failure prefix
and the count does not increase. -/
theorem active_device_count_invariant_witness :
    (runFailures ⟨0, 0⟩ [("d1", "e1"), ("d2", "e2")] (initOrch 3)).activeCount ≤
      (runFailures ⟨0, 0⟩ [("d1", "e1")] (initOrch 3)).activeCount :=
  (active_device_count_invariant ⟨0, 0⟩ 3 [("d1", "e1"), ("d2", "e2")]).2.2.2.1
    [("d1", "e1")] [("d2", "e2")] rfl

/-- C8: exit code 0 arises only from a successful write invocation (the
listen path never exits 0); any invocation other than listen or
write-with-text exits 1 after printing usage lines containing "listen"
and "write <text>"; a fatal listen error exits 1; a failed write exits
101. -/
theorem exit_code_contract (args : List String) (now : SysTime)
    (entries : List DirEntry) (wr : Except String Unit) :
    ((mainRun args now entries wr).1 = ExitOutcome.exited 0 →
       (2 < args.length ∧ args.getD 1 "" = "write" ∧ wr = Except.ok ())) ∧
    (¬(1 < args.length ∧ args.getD 1 "" = "listen") →
     ¬(2 < args.length ∧ args.getD 1 "" = "write") →
       (mainRun args now entries wr).1 = ExitOutcome.exited 1 ∧
       (mainRun args now entries wr).2 = usageLines args ∧
       (∃ l ∈ usageLines args, strContains l "listen") ∧
       (∃ l ∈ usageLines args, strContains l "write <text>")) ∧
    ((1 < args.length ∧ args.getD 1 "" = "listen") →
       ∀ e, start_keyboard_listener now entries = ListenerOutcome.err e →
         (mainRun args now entries wr).1 = ExitOutcome.exited 1) ∧
    ((1 < args.length ∧ args.getD 1 "" = "listen") →
       (mainRun args now entries wr).1 ≠ ExitOutcome.exited 0) ∧
    ((2 < args.length ∧ args.getD 1 "" = "write") →
     ¬(1 < args.length ∧ args.getD 1 "" = "listen") →
       ∀ e, wr = Except.error e →
         (mainRun args now entries wr).1 = ExitOutcome.exited 101) := by
  by_cases hl : 1 < args.length ∧ args.getD 1 "" = "listen"
  · have hmr : mainRun args now entries wr =
        (match start_keyboard_listener now entries with
         | .err e => (ExitOutcome.exited 1, ["!error: " ++ e])
         | .running => (ExitOutcome.runsForever, [])) := by
      unfold mainRun
      rw [if_pos hl]
    refine ⟨?_, ?_, ?_, ?_, ?_⟩
    · intro h0
      exfalso
      rw [hmr] at h0
      cases hsk : start_keyboard_listener now entries <;>
        rw [hsk] at h0 <;> simp at h0
    · intro hnl
      exact absurd hl hnl
    · intro _ e hse
      rw [hmr, hse]
    · intro _
      rw [hmr]
      cases hsk : start_keyboard_listener now entries <;> simp
    · intro _ hnl
      exact absurd hl hnl
  · by_cases hw : 2 < args.length ∧ args.getD 1 "" = "write"
    · have hmr : mainRun args now entries wr =
          (match wr with
           | .ok _ => (ExitOutcome.exited 0, [])
           | .error e => (ExitOutcome.exited 101, ["Write command failed: " ++ e])) := by
        unfold mainRun
        rw [if_neg hl, if_pos hw]
      refine ⟨?_, ?_, ?_, ?_, ?_⟩
      · intro h0
        refine ⟨hw.1, hw.2, ?_⟩
        cases wr with
        | ok u => rfl
        | error e =>
          rw [hmr] at h0
          simp at h0
      · intro _ hnw
        exact absurd hw hnw
      · intro hlc
        exact absurd hlc hl
      · intro hlc
        exact absurd hlc hl
      · intro _ _ e he
        rw [hmr, he]
    · have hmr : mainRun args now entries wr =
          (ExitOutcome.exited 1, usageLines args) := by
        unfold mainRun
        rw [if_neg hl, if_neg hw]
      refine ⟨?_, ?_, ?_, ?_, ?_⟩
      · intro h0
        rw [hmr] at h0
        simp at h0
      · intro _ _
        refine ⟨by rw [hmr], by rw [hmr], ?_, ?_⟩
        · exact ⟨"  listen       - Listen for keyboard events",
            by simp [usageLines], by decide⟩
        · exact ⟨"  write <text> - Write text using accessibility API",
            by simp [usageLines], by decide⟩
      · intro hlc
        exact absurd hlc hl
      · intro hlc
        exact absurd hlc hl
      · intro hwc
        exact absurd hwc hw

/-- Witness for C8: invoking with no command argument exits 1 and
prints the usage lines. -/
theorem exit_code_contract_witness :
    (mainRun ["speakmcp-rs"] ⟨0, 0⟩ [] (Except.ok ())).1 = ExitOutcome.exited 1 ∧
    (mainRun ["speakmcp-rs"] ⟨0, 0⟩ [] (Except.ok ())).2 = usageLines ["speakmcp-rs"] ∧
    (∃ l ∈ usageLines ["speakmcp-rs"], strContains l "listen") ∧
    (∃ l ∈ usageLines ["speakmcp-rs"], strContains l "write <text>") :=
  (exit_code_contract ["speakmcp-rs"] ⟨0, 0⟩ [] (Except.ok ())).2.1
    (by decide) (by decide)

set_option maxRecDepth 10000 in
/-- C9: each emitted stdout record is one JSON object with members
event_type, name, time, data in that order, where data is a JSON string
(not an inlined object) whose content is the JSON encoding of the nested
object - mapping "key" to the canonical name for key events and
"error"/"message" for error events; a press then release of the A key
yields exactly the KeyPress line then the KeyRelease line, each with
data content the encoding of the object mapping "key" to "KeyA". -/
theorem stdout_json_contract (now : SysTime) (k et msg : String) :
    ((processEvent now { kind := .key k, value := 1 }).map serializeEvent =
      some (renderJson (.obj (.fcons "event_type" (.str "KeyPress")
        (.fcons "name" (.str (evdev_key_to_rdev_name k))
        (.fcons "time" (sysTimeJson now)
        (.fcons "data" (.str (renderJson (.obj (.fcons "key"
          (.str (evdev_key_to_rdev_name k)) .nil)))) .nil))))))) ∧
    ((processEvent now { kind := .key k, value := 0 }).map serializeEvent =
      some (renderJson (.obj (.fcons "event_type" (.str "KeyRelease")
        (.fcons "name" (.str (evdev_key_to_rdev_name k))
        (.fcons "time" (sysTimeJson now)
        (.fcons "data" (.str (renderJson (.obj (.fcons "key"
          (.str (evdev_key_to_rdev_name k)) .nil)))) .nil))))))) ∧
    (serializeEvent (output_error_event now et msg).1 =
      renderJson (.obj (.fcons "event_type" (.str "Error")
        (.fcons "name" (.str et)
        (.fcons "time" (sysTimeJson now)
        (.fcons "data" (.str (renderJson (.obj (.fcons "error" (.str et)
          (.fcons "message" (.str msg) .nil)))))
         .nil)))))) ∧
    ((listen_keyboard_device now
        [FetchResult.batch [⟨.key "KEY_A", 1⟩, ⟨.key "KEY_A", 0⟩]]).1 =
      [serializeEvent { event_type := "KeyPress", name := some "KeyA",
                        time := now, data := keyDataJson "KeyA" },
       serializeEvent { event_type := "KeyRelease", name := some "KeyA",
                        time := now, data := keyDataJson "KeyA" }]) ∧
    keyDataJson "KeyA" = "\x7b\x22key\x22:\x22KeyA\x22\x7d" := by
  refine ⟨?_, ?_, ?_, ?_, by decide⟩
  · simp [processEvent, serializeEvent, keyboardEventJson, keyDataJson]
  · simp [processEvent, serializeEvent, keyboardEventJson, keyDataJson]
  · simp [output_error_event, serializeEvent, keyboardEventJson, errorDataJson]
  · simp [listen_keyboard_device, processEvent]
    constructor <;> congr 1

/-- C10: every emitted record carries a non-null name: a key record's
name is exactly the canonical name carried inside its data, and an
error record has event_type "Error" and name equal to the error kind
carried inside its data. -/
theorem record_name_not_null (now : SysTime) (events : List InputEvent)
    (et msg : String) :
    (∀ rec ∈ events.filterMap (processEvent now),
       ∃ nm, rec.name = some nm ∧ rec.data = keyDataJson nm) ∧
    ((output_error_event now et msg).1.event_type = "Error" ∧
     (output_error_event now et msg).1.name = some et ∧
     (output_error_event now et msg).1.data = errorDataJson et msg) := by
  refine ⟨?_, rfl, rfl, rfl⟩
  intro rec hrec
  rw [List.mem_filterMap] at hrec
  obtain ⟨ev, _, hpe⟩ := hrec
  unfold processEvent at hpe
  cases hk : ev.kind with
  | other =>
    rw [hk] at hpe
    exact absurd hpe (by simp)
  | key k =>
    rw [hk] at hpe
    simp only at hpe
    split at hpe
    · exact absurd hpe (by simp)
    · rename_i ty hty
      cases Option.some.inj hpe
      exact ⟨evdev_key_to_rdev_name k, rfl, rfl⟩

/-- Witness for C10: the record produced by a concrete A-key press has
a non-null name matching its data content. -/
theorem record_name_not_null_witness :
    ∃ nm, KeyboardEvent.name { event_type := "KeyPress", name := some "KeyA",
                               time := ⟨0, 0⟩, data := keyDataJson "KeyA" } = some nm ∧
      KeyboardEvent.data { event_type := "KeyPress", name := some "KeyA",
                           time := ⟨0, 0⟩, data := keyDataJson "KeyA" } = keyDataJson nm :=
  (record_name_not_null ⟨0, 0⟩ [⟨.key "KEY_A", 1⟩] "E" "m").1
    { event_type := "KeyPress", name := some "KeyA", time := ⟨0, 0⟩,
      data := keyDataJson "KeyA" } (by decide)
